import Mathlib

/-!
Shallow embedding of the Thorlabs motion-control repository's device
abstraction layer: the controller state machine (base.py), the controller
registry (controllers.py), the stage registry (stages.py), the device
manager (device_manager.py), the Kinesis device backends (kinesis/kdc101.py,
kinesis/kim101.py) and the GUI stage auto-detection routine (gui.py).
Python floats that only ever carry exact decimal values are modelled as
rationals; fallible Python methods are modelled as `Except`-valued
functions; backend handles are modelled as records of the behaviours the
modelled code paths can observe.
-/

/-- Controller connection states, from `ControllerState` in base.py. -/
inductive ControllerState where
  | disconnected
  | connecting
  | connected
  | homing
  | moving
  | error
deriving DecidableEq, Repr

/-- MotorController.is_connected (base.py 118-125): true exactly when the
state is in (CONNECTED, HOMING, MOVING). -/
def motorIsConnected (s : ControllerState) : Bool :=
  s == ControllerState.connected || s == ControllerState.homing ||
    s == ControllerState.moving

/-- PiezoController.is_connected (base.py 478-480): true exactly when the
state differs from DISCONNECTED. -/
def piezoIsConnected (s : ControllerState) : Bool :=
  s != ControllerState.disconnected

/-- Registry row of the CONTROLLERS table (controllers.py 81-175), keeping
the fields the modelled code paths read: the model name, the 2-digit
serial-number head (the table's serial-number routing field), the channel
count, the motor_type string, the optional apt_hw_type code and the
supports_homing flag. -/
structure ControllerInfo where
  name : String
  head2 : Nat
  channels : Nat
  motor_type : String
  apt_hw_type : Option Nat
  supports_homing : Bool
deriving DecidableEq, Repr

/-- The CONTROLLERS registry (controllers.py 81-175), in source order. -/
def CONTROLLERS : List ControllerInfo :=
  [⟨"KDC101", 27, 1, "dc_servo", some 42, true⟩,
   ⟨"KBD101", 28, 1, "brushless", none, true⟩,
   ⟨"TDC001", 83, 1, "dc_servo", some 27, true⟩,
   ⟨"KIM101", 97, 4, "inertial", none, false⟩,
   ⟨"KPZ101", 29, 1, "piezo", some 29, false⟩,
   ⟨"TPZ001", 81, 1, "piezo", some 81, false⟩]

/-- Numeric value of a decimal digit character. -/
def digitVal (c : Char) : Nat := c.toNat - 48

/-- The value of `int(str(serial_number)[:2])` (controllers.py 204): the
decimal digit string of the serial, truncated to its first two characters,
read back as a number. -/
def firstTwoDigits (n : Nat) : Nat :=
  ((Nat.toDigits 10 n).take 2).foldl (fun acc c => 10 * acc + digitVal c) 0

/-- get_controller_type (controllers.py 187-205): resolve the serial's
2-digit head through the registry (the derived `_PREFIX_TO_CONTROLLER`
map), `None` when no registered row carries that head. -/
def get_controller_type (serial_number : Nat) : Option String :=
  (CONTROLLERS.find? (fun i => i.head2 == firstTwoDigits serial_number)).map
    (fun i => i.name)

/-- get_controller_info (controllers.py 208-218): direct lookup by model
name. -/
def get_controller_info (controller_type : String) : Option ControllerInfo :=
  CONTROLLERS.find? (fun i => i.name == controller_type)

/-- supports_apt (controllers.py 242-245): the registry row exists and its
apt_hw_type is not None. -/
def supports_apt (controller_type : String) : Bool :=
  match get_controller_info controller_type with
  | some info => info.apt_hw_type.isSome
  | none => false

/-- Typed errors raised by the modelled code paths (base.py 607-629 plus
the interpreter-level TypeError). -/
inductive PyError where
  | configurationError (msg : String)
  | movementError (msg : String)
  | typeError (msg : String)
deriving DecidableEq, Repr

/-- Result of the APT factory: the adapter variants it can instantiate
(apt/motor.py, apt/piezo.py). -/
inductive AptController where
  | motorAdapter (serial : Nat) (channel : Nat) (hw : Nat)
  | piezoAdapter (serial : Nat) (channel : Nat)
deriving DecidableEq, Repr

/-- _create_apt_controller (device_manager.py 616-641): reject any
controller type without APT support, then dispatch on motor_type. -/
def create_apt_controller (serial_number channel : Nat)
    (controller_type : String) (info : ControllerInfo) :
    Except PyError AptController :=
  if ¬ supports_apt controller_type then
    Except.error (PyError.configurationError
      (controller_type ++ " does not support APT COM interface. Use 64-bit Python with Kinesis instead."))
  else if info.motor_type = "dc_servo" ∨ info.motor_type = "brushless" then
    Except.ok (AptController.motorAdapter serial_number channel
      (info.apt_hw_type.getD 0))
  else if info.motor_type = "piezo" then
    Except.ok (AptController.piezoAdapter serial_number channel)
  else
    Except.error (PyError.configurationError
      ("No APT backend for motor type: " ++ info.motor_type))

/-- create_controller with backend="apt" (device_manager.py 513-581):
resolve the controller type from the serial (ConfigurationError when the
head is unregistered), fetch its registry row, and dispatch to
_create_apt_controller. The channel-config read and the stage-compatibility
check of the source only print warnings and bind stage metadata; they
cannot alter which backend constructor runs or which error is raised, so
the model elides them. -/
def create_controller_apt (serial_number channel : Nat) :
    Except PyError AptController :=
  match get_controller_type serial_number with
  | none =>
      Except.error (PyError.configurationError
        ("Unknown controller type for serial. Serial head not recognized."))
  | some ct =>
      match get_controller_info ct with
      | none =>
          Except.error (PyError.configurationError
            ("No registry row for " ++ ct))
      | some info => create_apt_controller serial_number channel ct info

/-- Stage registry row (stages.py 105-): the modelled code paths read only
the compatible_controllers list. -/
structure StageInfo where
  compatible_controllers : List String
deriving DecidableEq, Repr

/-- The STAGES registry (stages.py 105-), keys in source order with each
stage's compatible_controllers list. -/
def STAGES : List (String × StageInfo) :=
  [("PRM1Z8", ⟨["KDC101", "TDC001"]⟩),
   ("PRM1/MZ8", ⟨["KDC101", "TDC001"]⟩),
   ("HDR50", ⟨["KDC101", "TDC001"]⟩),
   ("K10CR1", ⟨["KDC101", "TDC001"]⟩),
   ("DDR25", ⟨["KDC101", "TDC001"]⟩),
   ("DDR100", ⟨["KDC101", "TDC001"]⟩),
   ("Z825B", ⟨["KDC101", "TDC001"]⟩),
   ("Z812B", ⟨["KDC101", "TDC001"]⟩),
   ("Z612B", ⟨["KDC101", "TDC001"]⟩),
   ("MTS25-Z8", ⟨["KDC101", "TDC001"]⟩),
   ("MTS50-Z8", ⟨["KDC101", "TDC001"]⟩),
   ("LTS150", ⟨["KDC101", "TDC001"]⟩),
   ("LTS300", ⟨["KDC101", "TDC001"]⟩),
   ("PT1-Z8", ⟨["KDC101", "TDC001"]⟩),
   ("DDS100", ⟨["KBD101"]⟩),
   ("DDSM100", ⟨["KBD101"]⟩),
   ("DDS220", ⟨["KBD101"]⟩),
   ("DDS300", ⟨["KBD101"]⟩),
   ("DDS600", ⟨["KBD101"]⟩),
   ("PIA13", ⟨["KIM101"]⟩),
   ("PIA25", ⟨["KIM101"]⟩),
   ("PIA50", ⟨["KIM101"]⟩),
   ("PIAK10", ⟨["KIM101"]⟩),
   ("PIAK25", ⟨["KIM101"]⟩),
   ("PK4FA7P1", ⟨["KPZ101", "TPZ001"]⟩),
   ("PAZ005", ⟨["KPZ101", "TPZ001"]⟩),
   ("PAZ015", ⟨["KPZ101", "TPZ001"]⟩),
   ("POLARIS-K1PZ", ⟨["KPZ101", "TPZ001"]⟩)]

/-- get_stage_info (stages.py 314-324): direct lookup by stage name. -/
def get_stage_info (stage_name : String) : Option StageInfo :=
  (STAGES.find? (fun e => e.1 == stage_name)).map (fun e => e.2)

/-- validate_stage_compatibility (device_manager.py 457-489): unknown
stages fail with an "Unknown stage" message; known stages succeed exactly
when the controller type is a member of the stage's
compatible_controllers, and otherwise fail with a message joining the
compatible types with " or ". -/
def validate_stage_compatibility (stage_name controller_type : String) :
    Bool × String :=
  match get_stage_info stage_name with
  | none => (false, "Unknown stage: " ++ stage_name)
  | some info =>
      if controller_type ∈ info.compatible_controllers then
        (true, stage_name ++ " is compatible with " ++ controller_type)
      else
        (false, stage_name ++ " requires " ++
          String.intercalate " or " info.compatible_controllers ++
          ", but controller is " ++ controller_type)

/-- Decides whether the first list is an initial segment of the second. -/
def leadsWith : List Char → List Char → Bool
  | [], _ => true
  | _ :: _, [] => false
  | c :: cs, d :: ds => c == d && leadsWith cs ds

/-- Decides whether the first list occurs contiguously inside the second
(the meaning of Python's `needle in haystack` on strings). -/
def containsSeq (needle : List Char) : List Char → Bool
  | [] => leadsWith needle []
  | c :: t => leadsWith needle (c :: t) || containsSeq needle t

/-- File-system operations a configuration save can perform on the store's
document, at the granularity a crash can observe. -/
inductive FileOp where
  | truncateTarget
  | writeTargetChunk (chunk : List Char)
  | writeTempFile (content : List Char)
  | renameTempOverTarget
deriving DecidableEq, Repr

/-- File-system state seen by the configuration store: the target file
devices.json and an optional temporary file. -/
structure FsState where
  target : List Char
  temp : Option (List Char)
deriving DecidableEq, Repr

/-- Effect of one completed file operation. -/
def applyFileOp (s : FsState) : FileOp → FsState
  | FileOp.truncateTarget => { s with target := [] }
  | FileOp.writeTargetChunk c => { s with target := s.target ++ c }
  | FileOp.writeTempFile c => { s with temp := some ((s.temp.getD []) ++ c) }
  | FileOp.renameTempOverTarget =>
      match s.temp with
      | some c => { target := c, temp := none }
      | none => s

/-- Every content the target file can hold if the process dies while the
operation list runs: before each operation, at every byte boundary inside
a direct write to the target, and after the final operation. -/
def crashTargets (s : FsState) : List FileOp → List (List Char)
  | [] => [s.target]
  | op :: rest =>
      (match op with
       | FileOp.writeTargetChunk c =>
           (List.range (c.length + 1)).map (fun k => s.target ++ c.take k)
       | _ => [s.target]) ++ crashTargets (applyFileOp s op) rest

/-- File-operation trace of save_device_config (device_manager.py 350-356):
`open(DEVICES_JSON, "w")` truncates the target in place, then `json.dump`
streams the serialized document directly into it. No temporary file and no
rename are involved. -/
def save_device_config_ops (doc : List Char) : List FileOp :=
  [FileOp.truncateTarget, FileOp.writeTargetChunk doc]

/-- The crash-safety requirement on a save trace: however the run is
interrupted, the target file holds either the previously saved document or
the completed new document, never anything in between. -/
def atomicReplacement (preexisting doc : List Char) (ops : List FileOp) : Bool :=
  (crashTargets ⟨preexisting, none⟩ ops).all (fun t => t == preexisting || t == doc)

/-- Backend handle of a connected KDC101 (the `self._device` Kinesis object
of kinesis/kdc101.py), recording the behaviours the modelled methods can
observe: the settled position, whether an issued move settles within the
caller's timeout, whether the backend raises on a move command, and whether
StopPolling/Disconnect raise during teardown. -/
structure MotorDevice where
  position : ℚ
  moveCompletesInTime : Bool
  moveRaises : Bool
  teardownRaises : Bool
deriving DecidableEq, Repr

/-- A KDC101 controller session: its state-machine state (base.py) and the
optional backend handle (`self._device`, None until connect succeeds and
after disconnect). -/
structure KDC101Session where
  state : ControllerState
  device : Option MotorDevice
deriving DecidableEq, Repr

/-- The `self._device.StopPolling(); self._device.Disconnect()` pair inside
KDC101Controller.disconnect's try block (kinesis/kdc101.py 100-104). -/
def stopPollingAndDisconnectHW (d : MotorDevice) : Except String Unit :=
  if d.teardownRaises then Except.error "backend teardown failure"
  else Except.ok ()

/-- KDC101Controller.disconnect (kinesis/kdc101.py 97-107): if a device
handle is bound, StopPolling and Disconnect run inside
`try: ... except Exception: pass`, then the handle is dropped; in every
case the session transitions to DISCONNECTED. The method body contains no
raising statement outside the try block, which the Except result type
records. -/
def KDC101.disconnect (c : KDC101Session) : Except PyError KDC101Session :=
  let c1 : KDC101Session :=
    match c.device with
    | some d =>
        match stopPollingAndDisconnectHW d with
        | Except.ok _ => { c with device := none }
        | Except.error _ => { c with device := none }
    | none => c
  Except.ok { c1 with state := ControllerState.disconnected }

/-- Running disconnect n times in sequence, stopping at the first raise. -/
def iterDisconnect : Nat → KDC101Session → Except PyError KDC101Session
  | 0, c => Except.ok c
  | n + 1, c =>
      match KDC101.disconnect c with
      | Except.ok c1 => iterDisconnect n c1
      | Except.error e => Except.error e

/-- KDC101Controller.get_position (kinesis/kdc101.py 221-229): 0.0 when no
device handle is bound, otherwise the backend-reported position. -/
def KDC101.get_position (c : KDC101Session) : ℚ :=
  match c.device with
  | none => 0
  | some d => d.position

/-- KDC101Controller.move_relative (kinesis/kdc101.py 179-213): with no
device handle it returns False without any backend call or state change;
otherwise it sets MOVING, issues MoveRelative(Forward if distance > 0 else
Backward, abs(distance)), and with wait=True polls until done — a backend
exception or a wait past the timeout sets ERROR and raises MovementError,
and otherwise the state returns to CONNECTED, the settled position having
moved by the signed distance. The model reads the settled position of the
successful wait=True path. -/
def KDC101.move_relative (c : KDC101Session) (distance : ℚ) (wait : Bool) :
    Except PyError Bool × KDC101Session :=
  match c.device with
  | none => (Except.ok false, c)
  | some dev =>
      if dev.moveRaises then
        (Except.error (PyError.movementError "Relative move failed"),
         { c with state := ControllerState.error })
      else if wait && !dev.moveCompletesInTime then
        (Except.error (PyError.movementError "Relative move failed: Move timeout"),
         { c with state := ControllerState.error })
      else
        (Except.ok true,
         { state := ControllerState.connected,
           device := some { dev with
             position := dev.position +
               (if distance > 0 then |distance| else -|distance|) } })

/-- Commands a KIM101 session can issue to its backend handle
(kinesis/kim101.py): a jog on a channel (Increase when the direction
argument is positive) and a stop on a channel. -/
inductive KimCommand where
  | jogCmd (channel : Nat) (increase : Bool)
  | stopCmd (channel : Nat)
deriving DecidableEq, Repr

/-- A KIM101 controller session: state-machine state, whether the backend
handle `self._device` is bound, the session's channel and the internal
step counter of InertialController (base.py 326-328). -/
structure KIM101Session where
  state : ControllerState
  deviceBound : Bool
  channel : Nat
  step_count : Int
deriving DecidableEq, Repr

/-- InertialController.home (base.py 331-339): the body is `return False`;
no argument is inspected, no state changes and no backend command runs. -/
def InertialController.home (_wait : Bool) (_timeout : ℚ) (c : KIM101Session) :
    Bool × KIM101Session × List KimCommand :=
  (false, c, [])

/-- KIM101Controller.jog_continuous (kinesis/kim101.py 205-233): with a
bound device it issues device.Jog on the session's channel with
Increase/Decrease chosen by the sign test `direction > 0`. -/
def KIM101.jog_continuous (c : KIM101Session) (direction : Int) :
    Bool × List KimCommand :=
  if c.deviceBound then (true, [KimCommand.jogCmd c.channel (decide (direction > 0))])
  else (false, [])

/-- KIM101Controller.move_to_limit (kinesis/kim101.py 526-568): with no
device it returns False; otherwise it sets MOVING, starts a continuous jog,
waits out the timeout window, stops, returns to CONNECTED, resets the step
counter and returns True. -/
def KIM101.move_to_limit (c : KIM101Session) (direction : Int) (_timeout : ℚ) :
    Bool × KIM101Session × List KimCommand :=
  if c.deviceBound then
    (true,
     { c with state := ControllerState.connected, step_count := 0 },
     [KimCommand.jogCmd c.channel (decide (direction > 0)),
      KimCommand.stopCmd c.channel])
  else (false, c, [])

/-- KIM101Controller.jog (kinesis/kim101.py 167-203). Its positional
parameter list after self is `(direction)` alone — the jog step count is
taken from the device's configured jog parameters, not from an argument.
With a bound device it issues device.Jog with Increase/Decrease chosen by
`direction > 0`. -/
def KIM101.jog (c : KIM101Session) (direction : Int) : Bool × List KimCommand :=
  if c.deviceBound then (true, [KimCommand.jogCmd c.channel (decide (direction > 0))])
  else (false, [])

/-- Number of positional parameters after self declared by
KIM101Controller.jog (kinesis/kim101.py 167): just `direction`. -/
def kim101_jog_param_count : Nat := 1

/-- Number of positional arguments InertialController.move_relative passes
to self.jog (base.py 452): `direction` and `steps`. -/
def move_relative_jog_arg_count : Nat := 2

/-- Python positional-call check: a call passing more positional arguments
than the target function declares raises TypeError before the body runs. -/
def pyCallCheck (paramCount argCount : Nat) : Except PyError Unit :=
  if argCount > paramCount then
    Except.error (PyError.typeError
      "jog() takes 2 positional arguments but 3 were given")
  else Except.ok ()

/-- The step-command conversion of InertialController.move_relative
(base.py 444-450): step_size from the bound stage configuration (0.00002,
i.e. 1/50000, when none is bound or the key is absent),
steps = int(abs(distance) / step_size) and direction = 1 if distance > 0
else -1. -/
def inertialSteps (stage_step_size : Option ℚ) (distance : ℚ) : Nat × Int :=
  let step_size := stage_step_size.getD (1 / 50000)
  ((⌊|distance| / step_size⌋).toNat, if distance > 0 then 1 else -1)

/-- InertialController.move_relative as executed by the KIM101 variant
(base.py 433-452 with dynamic dispatch binding KIM101Controller.jog):
compute the step command, then evaluate `self.jog(direction, steps)` — a
2-argument positional call checked against the bound method's 1-parameter
list before any jog could run. -/
def KIM101.move_relative (c : KIM101Session) (stage_step_size : Option ℚ)
    (distance : ℚ) : Except PyError (Bool × List KimCommand) :=
  let cmd := inertialSteps stage_step_size distance
  match pyCallCheck kim101_jog_param_count move_relative_jog_arg_count with
  | Except.error e => Except.error e
  | Except.ok _ => Except.ok (KIM101.jog c cmd.2)

/-- In-memory per-device configuration mirror held by the GUI
(`device.config`), restricted to the field the auto-detection routine
reads and writes: each channel key's "stage" value. `none` stands for a
missing "stage" key or a stored None, both falsy in the source's
`if not current_stage` test. -/
structure DeviceConfig where
  channels : List (String × Option String)
deriving DecidableEq, Repr

/-- The stage keys of the STAGES registry in iteration order, as the
auto-detection loop `for known_stage in STAGES` enumerates them. -/
def STAGE_NAMES : List String := STAGES.map (fun e => e.1)

/-- Python's str.upper over the ASCII names this code handles. -/
def pyUpper (s : List Char) : List Char := s.map Char.toUpper

/-- One fuel-indexed pass of Python's str.replace: replace each leftmost,
non-overlapping occurrence of pat by rep. The fuel is the input length, so
it never runs out. -/
def pyReplaceAux (pat rep : List Char) : Nat → List Char → List Char
  | _, [] => []
  | 0, s => s
  | fuel + 1, c :: t =>
      if leadsWith pat (c :: t) && !pat.isEmpty then
        rep ++ pyReplaceAux pat rep fuel (List.drop (pat.length - 1) t)
      else
        c :: pyReplaceAux pat rep fuel t

/-- Python's str.replace(pat, rep) for a non-empty pattern. -/
def pyReplace (s pat rep : List Char) : List Char :=
  pyReplaceAux pat rep s.length s

/-- The normalization of gui.py 2153: uppercase the backend-reported name,
then strip the "/M" and "-M" suffix markers in that order. -/
def upperStrip (s : String) : List Char :=
  pyReplace (pyReplace (pyUpper s.data) "/M".data []) "-M".data []

/-- The stage-name matching of gui.py 2147-2157: exact key match first,
then the first registry key whose uppercase form contains or is contained
in the normalized reported name. -/
def matchKnownStage (settings_name : String) : Option String :=
  if settings_name ∈ STAGE_NAMES then some settings_name
  else
    STAGE_NAMES.find? (fun known =>
      containsSeq (pyUpper known.data) (upperStrip settings_name) ||
      containsSeq (upperStrip settings_name) (pyUpper known.data))

/-- Write a channel's "stage" value in place, preserving the other
channel entries (the dict item assignment of gui.py 2171). -/
def setStage (cfg : DeviceConfig) (key : String) (v : String) : DeviceConfig :=
  ⟨cfg.channels.map (fun e => if e.1 = key then (e.1, some v) else e)⟩

/-- MainWindow._try_auto_detect_stage (gui.py 2093-2182), from the point
where the backend-reported name has been read: an empty name or a failed
match leaves everything untouched; on a match the channels structure is
created if absent, and the detected stage is written and saved only when
the channel's current "stage" value is falsy (missing, None or ""). The
Bool result records whether save_device_config was called. -/
def try_auto_detect_stage (cfg? : Option DeviceConfig)
    (channel_key settings_name : String) : Option DeviceConfig × Bool :=
  if settings_name = "" then (cfg?, false)
  else
    match matchKnownStage settings_name with
    | none => (cfg?, false)
    | some stage_name =>
        let cfg : DeviceConfig :=
          match cfg? with
          | none => ⟨[]⟩
          | some c => c
        let cfg : DeviceConfig :=
          if (cfg.channels.lookup channel_key).isNone then
            ⟨cfg.channels ++ [(channel_key, none)]⟩
          else cfg
        let current : Option String := (cfg.channels.lookup channel_key).getD none
        if current = none ∨ current = some "" then
          (some (setStage cfg channel_key stage_name), true)
        else (some cfg, false)

theorem disconnect_eq (c : KDC101Session) :
    KDC101.disconnect c = Except.ok ⟨ControllerState.disconnected, none⟩ := by
  obtain ⟨st, d⟩ := c
  cases d with
  | none => rfl
  | some dev =>
      cases htd : dev.teardownRaises <;>
        simp [KDC101.disconnect, stopPollingAndDisconnectHW, htd]

theorem iterDisconnect_fixed (m : Nat) :
    iterDisconnect m ⟨ControllerState.disconnected, none⟩ =
      Except.ok ⟨ControllerState.disconnected, none⟩ := by
  induction m with
  | zero => rfl
  | succ k ih => simp [iterDisconnect, disconnect_eq, ih]

/-- C10: the two controller families disagree on the connectivity
predicate: MotorController.is_connected holds exactly in the CONNECTED,
HOMING and MOVING states (hence not in ERROR or CONNECTING), while
PiezoController.is_connected holds exactly outside DISCONNECTED (hence in
ERROR and CONNECTING). -/
theorem connectivity_motor_vs_piezo :
    (∀ s, motorIsConnected s = true ↔
        (s = ControllerState.connected ∨ s = ControllerState.homing ∨
         s = ControllerState.moving)) ∧
    (∀ s, piezoIsConnected s = true ↔ s ≠ ControllerState.disconnected) ∧
    motorIsConnected ControllerState.error = false ∧
    piezoIsConnected ControllerState.error = true ∧
    motorIsConnected ControllerState.connecting = false ∧
    piezoIsConnected ControllerState.connecting = true := by
  refine ⟨fun s => ?_, fun s => ?_, by decide, by decide, by decide, by decide⟩ <;>
    cases s <;> decide

/-- C4, counterexample: at serial 99123456 the 2-digit head 99 matches no
registered descriptor and get_controller_type returns None — not the
string "unknown". -/
theorem get_controller_type_unmatched_is_none :
    get_controller_type 99123456 = none ∧
    get_controller_type 99123456 ≠ some "unknown" := by decide

/-- C4, amended: get_controller_type is a pure function of the serial's
first two decimal digits — serials sharing that head resolve identically —
and a head carried by no registered descriptor resolves to None. -/
theorem get_controller_type_head_function (s₁ s₂ s : Nat)
    (h12 : firstTwoDigits s₁ = firstTwoDigits s₂)
    (hu : ∀ i ∈ CONTROLLERS, i.head2 ≠ firstTwoDigits s) :
    get_controller_type s₁ = get_controller_type s₂ ∧
    get_controller_type s = none := by
  constructor
  · unfold get_controller_type
    rw [h12]
  · unfold get_controller_type
    rw [List.find?_eq_none.mpr (fun i hi => by simpa using hu i hi)]
    rfl

theorem get_controller_type_head_function_witness :
    get_controller_type 27123456 = get_controller_type 27999999 ∧
    get_controller_type 99123456 = none :=
  get_controller_type_head_function 27123456 27999999 99123456 (by decide)
    (by decide)

/-- C3: the save trace of save_device_config truncates devices.json in
place and then streams the new document into it directly, so it is not an
atomic replacement: interrupting it can leave the target empty — neither
the prior document nor the new one — while the write-temp-then-rename
trace the claim requires does satisfy the atomicity predicate. -/
theorem save_device_config_not_crash_safe :
    atomicReplacement "old-config".data "new-config".data
        (save_device_config_ops "new-config".data) = false ∧
    [] ∈ crashTargets ⟨"old-config".data, none⟩
        (save_device_config_ops "new-config".data) ∧
    atomicReplacement "old-config".data "new-config".data
        [FileOp.writeTempFile "new-config".data,
         FileOp.renameTempOverTarget] = true := by
  decide

/-- C2: KDC101Controller.disconnect never raises and, whatever the session
state and backend teardown behaviour, leaves the session disconnected with
the handle dropped; any n ≥ 1 consecutive disconnects end in the same
disconnected session, so a disconnect issued while already disconnected is
a no-op. -/
theorem kdc101_disconnect_idempotent_never_raises (c : KDC101Session)
    (n : Nat) (hn : 1 ≤ n) :
    KDC101.disconnect c = Except.ok ⟨ControllerState.disconnected, none⟩ ∧
    iterDisconnect n c = Except.ok ⟨ControllerState.disconnected, none⟩ := by
  refine ⟨disconnect_eq c, ?_⟩
  obtain ⟨m, rfl⟩ : ∃ m, n = m + 1 := ⟨n - 1, by omega⟩
  simp [iterDisconnect, disconnect_eq c, iterDisconnect_fixed m]

theorem kdc101_disconnect_idempotent_never_raises_witness :
    KDC101.disconnect ⟨ControllerState.moving, some ⟨0, true, false, true⟩⟩ =
      Except.ok ⟨ControllerState.disconnected, none⟩ ∧
    iterDisconnect 3 ⟨ControllerState.moving, some ⟨0, true, false, true⟩⟩ =
      Except.ok ⟨ControllerState.disconnected, none⟩ :=
  kdc101_disconnect_idempotent_never_raises
    ⟨ControllerState.moving, some ⟨0, true, false, true⟩⟩ 3 (by decide)

/-- C1, counterexample: a KDC101 session with no bound device handle
answers move_relative(1, wait=True) with False, raises nothing, changes
nothing, and its position stays where it was instead of moving to p + 1 —
a silent no-op. -/
theorem move_relative_silent_noop_when_disconnected :
    (KDC101.move_relative ⟨ControllerState.disconnected, none⟩ 1 true).1 =
        Except.ok false ∧
    (KDC101.move_relative ⟨ControllerState.disconnected, none⟩ 1 true).2 =
        ⟨ControllerState.disconnected, none⟩ ∧
    KDC101.get_position
        (KDC101.move_relative ⟨ControllerState.disconnected, none⟩ 1 true).2 =
      KDC101.get_position ⟨ControllerState.disconnected, none⟩ ∧
    KDC101.get_position ⟨ControllerState.disconnected, none⟩ + 1 ≠
      KDC101.get_position ⟨ControllerState.disconnected, none⟩ := by
  refine ⟨rfl, rfl, rfl, ?_⟩
  norm_num [KDC101.get_position]

/-- C1, amended: with a bound device handle, move_relative(d, wait=True)
on a KDC101 session either raises MovementError or returns True with the
settled position moved by exactly d. -/
theorem move_relative_bound_completes_or_raises (c : KDC101Session)
    (dev : MotorDevice) (distance : ℚ) (h : c.device = some dev) :
    (∃ msg, (KDC101.move_relative c distance true).1 =
        Except.error (PyError.movementError msg)) ∨
    ((KDC101.move_relative c distance true).1 = Except.ok true ∧
     KDC101.get_position (KDC101.move_relative c distance true).2 =
       KDC101.get_position c + distance) := by
  obtain ⟨st, d⟩ := c
  simp only at h
  subst h
  cases hr : dev.moveRaises with
  | true =>
      left
      exact ⟨"Relative move failed", by simp [KDC101.move_relative, hr]⟩
  | false =>
      cases hc : dev.moveCompletesInTime with
      | false =>
          left
          exact ⟨"Relative move failed: Move timeout",
            by simp [KDC101.move_relative, hr, hc]⟩
      | true =>
          right
          constructor
          · simp [KDC101.move_relative, hr, hc]
          · simp only [KDC101.move_relative, hr, hc, Bool.not_true,
              Bool.and_false, Bool.false_eq_true, if_false, if_neg,
              Bool.true_eq_false]
            by_cases hd : distance > 0
            · simp [KDC101.get_position, hd, abs_of_pos hd]
            · simp [KDC101.get_position, hd,
                abs_of_nonpos (le_of_not_lt hd)]

theorem move_relative_bound_completes_or_raises_witness :
    (∃ msg, (KDC101.move_relative
        ⟨ControllerState.connected, some ⟨5, true, false, false⟩⟩ 3 true).1 =
          Except.error (PyError.movementError msg)) ∨
    ((KDC101.move_relative
        ⟨ControllerState.connected, some ⟨5, true, false, false⟩⟩ 3 true).1 =
          Except.ok true ∧
     KDC101.get_position (KDC101.move_relative
        ⟨ControllerState.connected, some ⟨5, true, false, false⟩⟩ 3 true).2 =
       KDC101.get_position
        ⟨ControllerState.connected, some ⟨5, true, false, false⟩⟩ + 3) :=
  move_relative_bound_completes_or_raises _ ⟨5, true, false, false⟩ 3 rfl

/-- C5: the step-command conversion of the inertial move_relative turns
distance 0.001 at step_size 0.00002 into 50 forward steps as the claim
states, but executing move_relative on the KIM101 variant never issues
that jog: the 2-argument call self.jog(direction, steps) hits
KIM101Controller.jog's 1-parameter signature and raises TypeError. -/
theorem kim101_move_relative_raises_type_error :
    inertialSteps (some (1 / 50000)) (1 / 1000) = (50, 1) ∧
    KIM101.move_relative ⟨ControllerState.connected, true, 1, 0⟩
        (some (1 / 50000)) (1 / 1000) =
      Except.error (PyError.typeError
        "jog() takes 2 positional arguments but 3 were given") := by
  constructor
  · unfold inertialSteps
    norm_num
    rw [abs_of_pos (by norm_num : (0 : ℚ) < 1 / 1000)]
    norm_num
    rfl
  · rfl

/-- C6: every serial resolving to a controller type of brushless or
inertial motor kind is rejected by the APT (legacy) factory path with
ConfigurationError, because no such type carries an apt_hw_type. -/
theorem apt_backend_rejects_brushless_inertial (serial channel : Nat)
    (ct : String) (info : ControllerInfo)
    (h1 : get_controller_type serial = some ct)
    (h2 : get_controller_info ct = some info)
    (h3 : info.motor_type = "brushless" ∨ info.motor_type = "inertial") :
    ∃ msg, create_controller_apt serial channel =
      Except.error (PyError.configurationError msg) := by
  have hm : info ∈ CONTROLLERS := List.mem_of_find?_eq_some h2
  have hname : info.name = ct := by
    have := List.find?_some h2
    simpa using this
  subst hname
  simp only [CONTROLLERS, List.mem_cons, List.not_mem_nil, or_false] at hm
  rcases hm with rfl | rfl | rfl | rfl | rfl | rfl <;>
    simp only at h3 <;>
    first
      | (rcases h3 with h3 | h3 <;> exact absurd h3 (by decide))
      | (exact ⟨_, by unfold create_controller_apt; rw [h1]; rfl⟩)

theorem apt_backend_rejects_brushless_inertial_witness :
    ∃ msg, create_controller_apt 28123456 1 =
      Except.error (PyError.configurationError msg) :=
  apt_backend_rejects_brushless_inertial 28123456 1 "KBD101"
    ⟨"KBD101", 28, 1, "brushless", none, true⟩ (by decide) (by decide)
    (Or.inl rfl)

/-- C7: for every stage of the registry and every registered controller
type, validation succeeds exactly when the controller type is a member of
the stage's compatible_controllers, and on failure the returned message
contains every compatible controller type's name. -/
theorem validate_stage_compatibility_characterization :
    ∀ st ∈ STAGES, ∀ ct ∈ CONTROLLERS.map (fun i => i.name),
      ((validate_stage_compatibility st.1 ct).1 = true ↔
        ct ∈ st.2.compatible_controllers) ∧
      (ct ∉ st.2.compatible_controllers →
        ∀ t ∈ st.2.compatible_controllers,
          containsSeq t.data (validate_stage_compatibility st.1 ct).2.data =
            true) := by
  decide

theorem validate_stage_compatibility_characterization_witness :
    ((validate_stage_compatibility "PRM1Z8" "KIM101").1 = true ↔
        "KIM101" ∈ ["KDC101", "TDC001"]) ∧
    ("KIM101" ∉ ["KDC101", "TDC001"] →
      ∀ t ∈ ["KDC101", "TDC001"],
        containsSeq t.data
          (validate_stage_compatibility "PRM1Z8" "KIM101").2.data = true) :=
  validate_stage_compatibility_characterization
    ("PRM1Z8", ⟨["KDC101", "TDC001"]⟩) (by decide) "KIM101" (by decide)

/-- C8: auto-detection never overwrites an existing assignment — when a
channel's stored stage is a non-empty string, the routine leaves the
configuration exactly as it was and never calls save — and whenever it
does persist a detection, the channel's prior stage value was not a
non-empty assignment. -/
theorem auto_detect_never_overwrites :
    (∀ (cfg : DeviceConfig) (channel_key X settings_name : String),
        cfg.channels.lookup channel_key = some (some X) → X ≠ "" →
        try_auto_detect_stage (some cfg) channel_key settings_name =
          (some cfg, false)) ∧
    (∀ (cfg : DeviceConfig) (channel_key settings_name : String),
        (try_auto_detect_stage (some cfg) channel_key settings_name).2 =
            true →
        ∀ Y, cfg.channels.lookup channel_key = some (some Y) → Y = "") := by
  have key : ∀ (cfg : DeviceConfig) (channel_key X settings_name : String),
      cfg.channels.lookup channel_key = some (some X) → X ≠ "" →
      try_auto_detect_stage (some cfg) channel_key settings_name =
        (some cfg, false) := by
    intro cfg channel_key X settings_name hX hne
    unfold try_auto_detect_stage
    by_cases he : settings_name = ""
    · simp [he]
    · simp only [he, if_false]
      cases hmatch : matchKnownStage settings_name with
      | none => rfl
      | some sn => simp [hX, hne]
  refine ⟨key, ?_⟩
  intro cfg channel_key settings_name hsave Y hY
  by_contra hne
  rw [key cfg channel_key Y settings_name hY hne] at hsave
  exact Bool.false_ne_true hsave

theorem auto_detect_never_overwrites_witness :
    try_auto_detect_stage (some ⟨[("1", some "PRM1Z8")]⟩) "1" "DDS100" =
      (some ⟨[("1", some "PRM1Z8")]⟩, false) :=
  auto_detect_never_overwrites.1 ⟨[("1", some "PRM1Z8")]⟩ "1" "PRM1Z8"
    "DDS100" (by decide) (by decide)

/-- C9: the inertial variant's home ignores its arguments and the session
state, always answers False and issues no backend command, while the
seek-to-hardware-limit behaviour lives only in the separately named
move_to_limit, which on a bound device does issue motion commands and
returns True. -/
theorem inertial_home_always_false :
    (∀ (wait : Bool) (timeout : ℚ) (c : KIM101Session),
        InertialController.home wait timeout c = (false, c, [])) ∧
    (∀ (c : KIM101Session) (direction : Int) (timeout : ℚ),
        c.deviceBound = true →
        (KIM101.move_to_limit c direction timeout).1 = true ∧
        KimCommand.jogCmd c.channel (decide (direction > 0)) ∈
          (KIM101.move_to_limit c direction timeout).2.2) := by
  constructor
  · intro wait timeout c
    rfl
  · intro c direction timeout h
    simp [KIM101.move_to_limit, h]

theorem inertial_home_always_false_witness :
    InertialController.home true 60 ⟨ControllerState.connected, true, 1, 0⟩ =
      (false, ⟨ControllerState.connected, true, 1, 0⟩, []) ∧
    (KIM101.move_to_limit ⟨ControllerState.connected, true, 1, 0⟩ 1 60).1 =
      true ∧
    KimCommand.jogCmd 1 (decide ((1 : Int) > 0)) ∈
      (KIM101.move_to_limit ⟨ControllerState.connected, true, 1, 0⟩ 1 60).2.2 :=
  ⟨inertial_home_always_false.1 true 60 _,
   inertial_home_always_false.2 ⟨ControllerState.connected, true, 1, 0⟩ 1 60
     rfl⟩
